import Mathlib

/-!
Shallow embedding of the candidate-generation engine of the proofreader
repository (src/proofreader/data/splitter.py), together with theorems that
settle the claims of the specification against the code.

Conventions of the embedding:
  * A 3D label volume is a `List (List (List Nat))`, indexed z, y, x.
  * Python global randomness is threaded explicitly: a random source is a
    stream `Nat → Nat` of raw draws; each primitive consumes a prefix of the
    stream and returns the advanced stream.
  * `random.randint a b` (inclusive on both ends) is modelled by
    `a + draw % (b - a + 1)`; `random.choice l` picks `l[draw % l.length]`
    and fails on an empty list exactly where Python raises.
  * Python `assert` failures and raised exceptions are modelled by
    `Except.error`; the explicit `return None` of the source is modelled by
    `Except.ok none`, keeping the two failure channels distinct.
  * Functions of `proofreader.utils` and of third-party libraries
    (`cc3d.connected_components`, `skimage.find_boundaries`) are not under
    src/; they are modelled from the specification text and carry a doc
    comment saying so.
-/

/-- Random source: an infinite stream of raw nonnegative draws. -/
def Rng : Type := Nat → Nat

/-- Advance a random source by one draw. -/
def Rng.tail (σ : Rng) : Rng := fun i => σ (i + 1)

/-- Model of Python `random.randint a b` (both ends inclusive, assuming
`a ≤ b`): consumes one draw and maps it into `[a, b]`. -/
def pyRandint (a b : Nat) (σ : Rng) : Nat × Rng :=
  (a + σ 0 % (b - a + 1), σ.tail)

/-- Model of Python `random.choice l`: consumes one draw; raises (returns
`none`) on an empty list, as Python does. -/
def pyChoice (l : List Nat) (σ : Rng) : Option (Nat × Rng) :=
  match l with
  | [] => none
  | _ :: _ => some (l.getD (σ 0 % l.length) 0, σ.tail)

/-! ## Worker partitioning of the gap-start range (C1)

`SliceDataset.get_drop_start_range` and the splitting arithmetic of
`SliceDataset.__iter__`. Integers are used because the Python expressions
are over signed integers. -/

/-- Embedding of `SliceDataset.get_drop_start_range` in the single-process
case (`drop_start_worker_range is None`): the half-open valid gap-start
range is `[context_slices, volumeDepth - num_slices - context_slices)`. -/
def get_drop_start_range (volumeDepth num_slices context_slices : Nat) : Int × Int :=
  ((context_slices : Int), (volumeDepth : Int) - num_slices - context_slices)

/-- Exact ceiling division of an integer by a positive natural number,
the value of Python `math.ceil((end - start) / float n)`. -/
def ceilDivInt (x : Int) (n : Nat) : Int :=
  Int.ediv (x + n - 1) n

/-- Embedding of the per-worker bounds computed in `SliceDataset.__iter__`:
`start, end = context_slices, depth - num_slices - context_slices - 1`,
`per_worker = ceil((end - start) / num_workers)`,
`iter_start = start + worker_id * per_worker`,
`iter_end = min(iter_start + per_worker, end)`. -/
def iter_worker_bounds (volumeDepth num_slices context_slices num_workers worker_id : Nat) :
    Int × Int :=
  let start : Int := (context_slices : Int)
  let stop : Int := (volumeDepth : Int) - num_slices - context_slices - 1
  let per_worker : Int := ceilDivInt (stop - start) num_workers
  let iter_start : Int := start + worker_id * per_worker
  (iter_start, min (iter_start + per_worker) stop)

/-- A drop-start position `z` is covered by worker `k` when it lies in that
worker bound pair; workers with an empty range are discarded by
`__iter__` (`iter_start >= iter_end`), which coincides with membership in
the half-open interval being impossible. -/
def worker_covers (volumeDepth num_slices context_slices num_workers worker_id : Nat)
    (z : Int) : Bool :=
  let (a, b) := iter_worker_bounds volumeDepth num_slices context_slices num_workers worker_id
  a ≤ z && z < b

/-- Whether any of the `num_workers` workers covers drop-start `z`. -/
def covered_by_any_worker (volumeDepth num_slices context_slices num_workers : Nat)
    (z : Int) : Bool :=
  (List.range num_workers).any
    (fun k => worker_covers volumeDepth num_slices context_slices num_workers k z)

/-- C1: the per-worker drop-start ranges computed by `SliceDataset.__iter__`
do NOT tile the full valid gap-start range: with volume depth 10,
`num_slices = 2`, `context_slices = 1` and a single worker, position 6 is a
valid gap start (it lies in `get_drop_start_range = [1, 7)`) yet no worker
covers it, because `__iter__` ends the worker range at
`depth - num_slices - context_slices - 1 = 6` exclusive. -/
theorem worker_partition_misses_last_gap_start :
    (let (a, b) := get_drop_start_range 10 2 1; a ≤ 6 ∧ (6 : Int) < b) ∧
      covered_by_any_worker 10 2 1 1 6 = false := by
  decide

/-! ## Label volumes and slice matrices -/

/-- A 2D label slice, indexed y then x. -/
def Mat : Type := List (List Nat)

/-- A 3D label volume, indexed z, y, x. -/
def Vol : Type := List Mat

instance : Append Vol := ⟨fun a b => List.append a b⟩

instance : DecidableEq Mat := inferInstanceAs (DecidableEq (List (List Nat)))

instance : DecidableEq Vol := inferInstanceAs (DecidableEq (List Mat))

/-- Value of a matrix at `(y, x)`, background 0 outside. -/
def Mat.at (m : Mat) (y x : Nat) : Nat := (m.getD y []).getD x 0

/-- Value of a volume at `(z, y, x)`, background 0 outside. -/
def Vol.at (v : Vol) (z y x : Nat) : Nat := ((v.getD z []).getD y []).getD x 0

/-- Number of z-slices of a volume. -/
def Vol.sz (v : Vol) : Nat := v.length

/-- Number of rows (y extent) of a volume. -/
def Vol.sy (v : Vol) : Nat := (v.getD 0 []).length

/-- Number of columns (x extent) of a volume. -/
def Vol.sx (v : Vol) : Nat := ((v.getD 0 []).getD 0 []).length

/-- All values of a matrix in row-major scan order. -/
def Mat.vals (m : Mat) : List Nat := List.flatten m

/-- All values of a volume in scan order (z outermost). -/
def Vol.vals (v : Vol) : List Nat := (v.map Mat.vals).flatten

/-- Sorted list of the distinct values of a list, ascending: the model of
`np.unique` on the corresponding array. -/
def uniqueSorted (l : List Nat) : List Nat :=
  (l.insertionSort (fun a b => a ≤ b)).dedup

/-- Model of `np.unique` on a 2D slice. -/
def Mat.unique (m : Mat) : List Nat := uniqueSorted m.vals

/-- Model of `np.unique` on a 3D volume. -/
def Vol.unique (v : Vol) : List Nat := uniqueSorted v.vals

/-- Model of `proofreader.utils` `list_remove`: remove all occurrences of
the given values (the utility is not under src/; its call sites pass a
value or list of values to delete, as the spec describes for removing the
background and seed labels). -/
def list_remove (l : List Nat) (xs : List Nat) : List Nat :=
  l.filter (fun v => ¬ v ∈ xs)

/-- Coordinates of a volume in scan order. -/
def Vol.coords (v : Vol) : List (Nat × Nat × Nat) :=
  (List.range v.sz).flatMap (fun z =>
    (List.range v.sy).flatMap (fun y =>
      (List.range v.sx).map (fun x => (z, y, x))))

/-- Whether the volume holds a nonzero voxel (over the scanned grid). -/
def Vol.hasNonzero (v : Vol) : Bool :=
  v.coords.any (fun c => v.at c.1 c.2.1 c.2.2 ≠ 0)

/-! ### Crop to the nonzero bounding box

Modelled from the spec: `crop_where(vol, vol != 0)` of `proofreader.utils`
is not under src/; per the spec, `cropToNonzero` returns the tightest
bounding box containing all nonzero voxels. On an all-zero volume the
volume is returned unchanged (no call site reaches that case). -/

/-- Least index whose predicate holds, given some index holds; 0 fallback. -/
def firstIdx (l : List Bool) : Nat := l.findIdx (fun b => b)

/-- Greatest index whose predicate holds (0 fallback). -/
def lastIdx (l : List Bool) : Nat := l.length - 1 - (l.reverse.findIdx (fun b => b))

/-- Modelled from the spec: `crop_where(vol, vol != 0)` — crop a volume to
the tightest bounding box containing every nonzero voxel. -/
def crop_where (v : Vol) : Vol :=
  if v.hasNonzero then
    let zflags := v.map (fun m => m.vals.any (fun x => x ≠ 0))
    let yflags := (List.range v.sy).map (fun y =>
      (List.range v.sz).any (fun z => (List.range v.sx).any (fun x => v.at z y x ≠ 0)))
    let xflags := (List.range v.sx).map (fun x =>
      (List.range v.sz).any (fun z => (List.range v.sy).any (fun y => v.at z y x ≠ 0)))
    let z0 := firstIdx zflags; let z1 := lastIdx zflags
    let y0 := firstIdx yflags; let y1 := lastIdx yflags
    let x0 := firstIdx xflags; let x1 := lastIdx xflags
    ((v.drop z0).take (z1 + 1 - z0)).map (fun m =>
      ((m.drop y0).take (y1 + 1 - y0)).map (fun row =>
        (row.drop x0).take (x1 + 1 - x0)))
  else v

/-! ### Connected-component relabeling

Modelled from the spec: `cc3d.connected_components` is a third-party
routine; per the spec, every maximal set of same-valued adjacent voxels
gets one synthetic identifier, background stays background, and
26-connectivity (the cc3d default, and the documented choice) is used.
The implementation below seeds every nonzero voxel with a distinct
provisional label, repeatedly replaces each label by the minimum over the
26-neighbourhood restricted to equal-valued voxels (enough iterations to
stabilise), then renumbers the surviving labels 1, 2, … in scan order. -/

/-- The 26-neighbourhood offsets in 3D (all nonzero offsets in `{-1,0,1}³`). -/
def offsets26 : List (Int × Int × Int) :=
  ([-1, 0, 1].flatMap (fun a => [-1, 0, 1].flatMap (fun b => [-1, 0, 1].map (fun c => (a, b, c))))).filter
    (fun o => o ≠ (0, 0, 0))

/-- Integer-indexed volume access, background outside. -/
def Vol.atI (v : Vol) (z y x : Int) : Nat :=
  if 0 ≤ z ∧ 0 ≤ y ∧ 0 ≤ x then v.at z.toNat y.toNat x.toNat else 0

/-- One min-propagation step of the provisional labelling `lab` over `v`. -/
def ccStep (v : Vol) (lab : Vol) : Vol :=
  (List.range v.sz).map (fun z =>
    (List.range v.sy).map (fun y =>
      (List.range v.sx).map (fun x =>
        if v.at z y x = 0 then 0
        else
          offsets26.foldl
            (fun best o =>
              let z' := (z : Int) + o.1
              let y' := (y : Int) + o.2.1
              let x' := (x : Int) + o.2.2
              if v.atI z' y' x' = v.at z y x ∧ lab.atI z' y' x' ≠ 0 then
                min best (lab.atI z' y' x')
              else best)
            (lab.at z y x))))

/-- Initial provisional labelling: scan position + 1 on nonzero voxels. -/
def ccInit (v : Vol) : Vol :=
  (List.range v.sz).map (fun z =>
    (List.range v.sy).map (fun y =>
      (List.range v.sx).map (fun x =>
        if v.at z y x = 0 then 0 else z * (v.sy * v.sx) + y * v.sx + x + 1)))

/-- Renumber the distinct nonzero labels of `lab` as 1, 2, … in ascending
order of provisional label (which is first-touch scan order). -/
def ccRenumber (lab : Vol) : Vol :=
  let ids := (uniqueSorted lab.vals).filter (fun x => x ≠ 0)
  lab.map (fun m => m.map (fun row => row.map (fun x =>
    if x = 0 then 0 else ids.indexOf x + 1)))

/-- Modelled from the spec: `cc3d.connected_components` — 26-connected
component relabeling; same-valued 26-adjacent voxels share one synthetic
identifier, identifiers are 1, 2, … in scan order, background stays 0. -/
def connected_components (v : Vol) : Vol :=
  let n := v.sz * v.sy * v.sx
  ccRenumber (Nat.rec (ccInit v) (fun _ ih => ccStep v ih) n)

/-! ### Interior removal (surface extraction)

Modelled from the spec: `skimage.segmentation.find_boundaries(v, mode='inner')`
is third-party; per the spec, `stripInteriorVoxels` retains only the voxels
adjacent to a differently-valued pixel (the inner object boundary). With the
default connectivity this is the 4-neighbourhood within the slice, and with
reflected borders an image-edge pixel is a boundary pixel only when some
in-bounds neighbour differs. -/

/-- Inner-boundary extraction on one slice: a pixel survives when it is
nonzero and some in-bounds 4-neighbour carries a different value (the model
of `v * find_boundaries(v, mode='inner')`). -/
def rm_interior (m : Mat) : Mat :=
  let h := m.length
  let w := (m.getD 0 []).length
  (List.range h).map (fun y =>
    (List.range w).map (fun x =>
      let v := m.at y x
      if v = 0 then 0
      else
        let differs : Bool :=
          (decide (0 < y) && decide (m.at (y - 1) x ≠ v)) ||
          (decide (y + 1 < h) && decide (m.at (y + 1) x ≠ v)) ||
          (decide (0 < x) && decide (m.at y (x - 1) ≠ v)) ||
          (decide (x + 1 < w) && decide (m.at y (x + 1) ≠ v))
        if differs then v else 0))

/-- Embedding of `SliceDataset.remove_vol_interiors`: interior removal is
applied independently to every z-slice (the open, tube-like variant). -/
def remove_vol_interiors (v : Vol) : Vol := v.map rm_interior

/-! ### Circular mask, centre of mass and Python rounding -/

/-- Model of Python `round` (banker's rounding, half to even) applied to
the nonnegative exact quotient `sum / mass` of two naturals, `0 < mass`. -/
def pyRoundDiv (sum mass : Nat) : Nat :=
  let f := sum / mass
  let r := sum % mass
  if 2 * r < mass then f
  else if mass < 2 * r then f + 1
  else if f % 2 = 0 then f else f + 1

/-- Modelled from the spec: `ndimage.measurements.center_of_mass` on a 2D
slice — the value-weighted centroid. Returned as the total mass together
with the two weighted coordinate sums (axis 0 first), whose exact quotients
by the mass are the centroid coordinates; `none` when the total mass is
zero (scipy yields NaN there and the subsequent Python `round` raises). -/
def center_of_mass_sums (m : Mat) : Option (Nat × Nat × Nat) :=
  let h := m.length
  let w := (m.getD 0 []).length
  let cells := (List.range h).flatMap (fun y => (List.range w).map (fun x => (y, x)))
  let mass := cells.foldl (fun s c => s + m.at c.1 c.2) 0
  if mass = 0 then none
  else
    some (mass,
          cells.foldl (fun s c => s + m.at c.1 c.2 * c.1) 0,
          cells.foldl (fun s c => s + m.at c.1 c.2 * c.2) 0)

/-- Modelled from the spec: `circular_mask(h, w, center, radius)` of
`proofreader.utils` — true inside the disk of the given radius. The call
sites pass `center = (com_y, com_x)` where `com_x` is the axis-0 (row)
centroid and `com_y` the axis-1 (column) centroid, so the first centre
component is compared against the column index. -/
def circular_mask (h w : Nat) (center : Nat × Nat) (radius : Nat) : List (List Bool) :=
  (List.range h).map (fun y =>
    (List.range w).map (fun x =>
      let dx : Int := (x : Int) - center.1
      let dy : Int := (y : Int) - center.2
      decide (dx * dx + dy * dy ≤ (radius : Int) * (radius : Int))))

/-- Mask lookup, false outside. -/
def maskAt (mask : List (List Bool)) (y x : Nat) : Bool :=
  ((mask.getD y []).getD x false)

/-- Model of `arr[~mask] = 0` on a slice: zero everything outside the mask. -/
def Mat.maskOutside (m : Mat) (mask : List (List Bool)) : Mat :=
  (List.range m.length).map (fun y =>
    (List.range ((m.getD 0 []).length)).map (fun x =>
      if maskAt mask y x then m.at y x else 0))

/-! ### Point clouds -/

/-- A point cloud / 2D numeric array as a list of rows of rationals. -/
def PMat : Type := List (List ℚ)

instance : DecidableEq PMat := inferInstanceAs (DecidableEq (List (List ℚ)))

instance : Membership (List ℚ) PMat := inferInstanceAs (Membership (List ℚ) (List (List ℚ)))

/-- Shape check of a numeric array: `r` rows, each of length `c`. -/
def PMat.shapeIs (p : PMat) (r c : Nat) : Bool :=
  p.length = r && p.all (fun row => row.length = c)

/-- Modelled from the spec: `convert_grid_to_pointcloud` of
`proofreader.utils` — the coordinates of all voxels with value above the
threshold 0, as floating-point triples in natural scan order. -/
def convert_grid_to_pointcloud (v : Vol) : PMat :=
  (v.coords.filter (fun c => v.at c.1 c.2.1 c.2.2 ≠ 0)).map
    (fun c => [(c.1 : ℚ), (c.2.1 : ℚ), (c.2.2 : ℚ)])

/-- Draw `count` rows with replacement, one stream draw per row. -/
def sampleWithReplacement (arr : PMat) (count : Nat) (σ : Rng) : PMat × Rng :=
  ((List.range count).map (fun k => arr.getD (σ k % arr.length) []),
   fun i => σ (i + count))

/-- Draw `count` rows without replacement: each draw removes the chosen row. -/
def sampleWithoutReplacement : Nat → PMat → Rng → PMat × Rng
  | 0, _, σ => ([], σ)
  | k + 1, arr, σ =>
    let i := σ 0 % arr.length
    let r := sampleWithoutReplacement k (arr.eraseIdx i) σ.tail
    (arr.getD i [] :: r.1, r.2)

/-- Modelled from the spec: `random_sample_arr(arr, count, replace)` of
`proofreader.utils` — uniformly sample `count` rows, with replacement when
`replace` is set and without otherwise; `none` models the `numpy` error on
sampling from an empty array. -/
def random_sample_arr (arr : PMat) (count : Nat) (replace : Bool) (σ : Rng) :
    Option (PMat × Rng) :=
  if arr.isEmpty ∧ 0 < count then none
  else if replace then some (sampleWithReplacement arr count σ)
  else some (sampleWithoutReplacement count arr σ)

/-- Embedding of `SliceDataset.convert_to_point_cloud`: grid-to-point-cloud
conversion followed, when `num_points` is configured, by resampling to
exactly that many points (with replacement when too few points exist,
without replacement otherwise). -/
def convert_to_point_cloud (num_points : Option Nat) (v : Vol) (σ : Rng) :
    Option (PMat × Rng) :=
  let pc := convert_grid_to_pointcloud v
  match num_points with
  | none => some (pc, σ)
  | some t =>
    if pc.length < t then random_sample_arr pc t true σ
    else random_sample_arr pc t false σ

/-! ## SliceDataset: final conversion of one candidate sub-volume -/

/-- Embedding of `SliceDataset.convert_volumetric_to_final`: crop to the
nonzero bounding box, relabel by connected components, assert that exactly
3 distinct values remain (a failed Python `assert` is `Except.error`),
strip interior voxels per slice, convert to a point cloud, apply the
augmentation capability when configured, and swap the two axes. -/
def convert_volumetric_to_final (num_points : Option Nat) (aug : Option (PMat → PMat))
    (vol_example : Vol) (σ : Rng) : Except String (PMat × Rng) :=
  let cropped := crop_where vol_example
  let relabeled := connected_components cropped
  if relabeled.unique.length = 3 then
    let stripped := remove_vol_interiors relabeled
    match convert_to_point_cloud num_points stripped σ with
    | none => .error "ValueError: cannot sample from an empty point cloud"
    | some (pc, σ') =>
      let pc := match aug with
        | some f => f pc
        | none => pc
      .ok (pc.transpose, σ')
  else .error "final sample should have 3 classes"

/-! ## SliceDataset: the many-candidate batch builder -/

/-- Configuration of a `SliceDataset` as far as `get_examples_from_top_class`
consumes it. The mean-distance key of the missing utility
`get_classes_sorted_by_distance` is carried as a field (see below). -/
structure SDConf where
  num_points : Option Nat
  radius : Nat
  context_slices : Nat
  aug : Option (PMat → PMat)
  key : Vol → Nat → Nat → ℚ

/-- First z-slice on which class `c` occurs (`none` when absent, where the
Python loop leaves `zmin` unbound and the function raises). -/
def find_zmin (v : Vol) (c : Nat) : Option Nat :=
  (List.range v.sz).find? (fun z => (v.getD z []).vals.contains c)

/-- Last z-slice on which class `c` occurs. -/
def find_zmax (v : Vol) (c : Nat) : Option Nat :=
  ((List.range v.sz).reverse).find? (fun z => (v.getD z []).vals.contains c)

/-- Model of `section[vol[a:a+len] == c] = c` on a freshly zeroed section:
the given span of slices masked to class `c`. -/
def section_masked (v : Vol) (start len c : Nat) : Vol :=
  (List.range len).map (fun i =>
    (v.getD (start + i) []).map (fun row =>
      row.map (fun x => if x = c then c else 0)))

/-- An all-zero volume of the given extents. -/
def zero_vol (n h w : Nat) : Vol :=
  List.replicate n (List.replicate h (List.replicate w 0))

/-- The candidate-enumeration context computed by the prefix of
`SliceDataset.get_examples_from_top_class`: gap geometry, the masked top
section, the centre-of-mass-centred masked bottom border, and the stacked
cropped two-slice volume handed to the distance sort. -/
structure CandContext where
  drop_start : Nat
  drop_end : Nat
  num_slices : Nat
  top_z_len : Nat
  bot_z_len : Nat
  top_sec : Vol
  bot_border : Mat
  d_vol : Vol

/-- Embedding of the prefix of `SliceDataset.get_examples_from_top_class`
(lines up to the distance sort): locate the seed class, build the masked
top section, take its border slice, round its centre of mass, build the
circular mask on the bottom border slice of the gap, and stack the two
border slices cropped to their nonzero bounding box. -/
def candidate_context (cfg : SDConf) (vol : Vol) (c : Nat) (drop : Nat × Nat) :
    Except String CandContext :=
  match find_zmin vol c with
  | none => .error "UnboundLocalError: zmin"
  | some zmin =>
    let drop_start := drop.1
    let drop_end := drop.2
    let num_slices := drop_end - drop_start
    let top_z_len := min cfg.context_slices (drop_start - zmin)
    let bot_z_len := min cfg.context_slices (vol.sz - drop_end)
    let top_sec := section_masked vol (drop_start - top_z_len) top_z_len c
    match top_sec.getLast? with
    | none => .error "IndexError: empty top section"
    | some top_border =>
      match center_of_mass_sums top_border with
      | none => .error "ValueError: round of NaN"
      | some com =>
        let com_x := pyRoundDiv com.2.1 com.1
        let com_y := pyRoundDiv com.2.2 com.1
        let mask := circular_mask vol.sy vol.sx (com_y, com_x) cfg.radius
        let bot_border := (vol.getD drop_end []).maskOutside mask
        let d_vol := crop_where [top_border, bot_border]
        .ok ⟨drop_start, drop_end, num_slices, top_z_len, bot_z_len, top_sec,
             bot_border, d_vol⟩

/-- Candidate order: strictly smaller key first, ties by ascending label. -/
def distLE (k : Nat → ℚ) (a b : Nat) : Prop :=
  k a < k b ∨ (k a = k b ∧ a ≤ b)

instance (k : Nat → ℚ) : DecidableRel (distLE k) := fun a b => by
  unfold distLE; exact inferInstance

instance (k : Nat → ℚ) : IsTotal Nat (distLE k) := by
  constructor
  intro a b
  rcases lt_trichotomy (k a) (k b) with h | h | h
  · exact Or.inl (Or.inl h)
  · rcases Nat.le_total a b with h2 | h2
    · exact Or.inl (Or.inr ⟨h, h2⟩)
    · exact Or.inr (Or.inr ⟨h.symm, h2⟩)
  · exact Or.inr (Or.inl h)

instance (k : Nat → ℚ) : IsTrans Nat (distLE k) := by
  constructor
  intro a b c hab hbc
  rcases hab with h1 | ⟨h1, h1a⟩
  · rcases hbc with h2 | ⟨h2, _⟩
    · exact Or.inl (h1.trans h2)
    · exact Or.inl (h2 ▸ h1)
  · rcases hbc with h2 | ⟨h2, h2a⟩
    · exact Or.inl (h1 ▸ h2)
    · exact Or.inr ⟨h1.trans h2, h1a.trans h2a⟩

/-- Modelled from the spec: `get_classes_sorted_by_distance(d_vol, top_c,
method='mean')` of `proofreader.utils` is not under src/. Per the spec it
collects the candidate labels on the masked bottom border (the distinct
nonzero labels of the stacked volume other than the seed label) and orders
them by mean distance from the footprint of the seed label, nearest first,
with stable ties broken by ascending label. The mean-distance value is the
`key` parameter since the utility computing it is missing; the ordering it
induces is what the claims are about. -/
def get_classes_sorted_by_distance (key : Vol → Nat → Nat → ℚ) (d_vol : Vol)
    (top_c : Nat) : List Nat :=
  let cls := (d_vol.unique).filter (fun x => x ≠ 0 ∧ x ≠ top_c)
  cls.insertionSort (distLE (key d_vol top_c))

/-- The sub-volume of one candidate: the masked top section, the empty gap
slices, and the bottom section masked to the candidate label (the loop body
of `get_examples_from_top_class`, building `cur_vol`). -/
def candidate_vol (vol : Vol) (ctx : CandContext) (bot_c : Nat) : Vol :=
  ctx.top_sec ++ zero_vol ctx.num_slices vol.sy vol.sx ++
    section_masked vol ctx.drop_end ctx.bot_z_len bot_c

/-- One iteration of the loop of `get_examples_from_top_class`: build the
candidate sub-volume and convert it; storing into the preallocated
`(len, 3, num_points)` tensor fails unless the produced array has shape
`(3, num_points)`, which the embedding checks explicitly. -/
def run_candidate_step (npts : Nat) (aug : Option (PMat → PMat)) (vol : Vol)
    (ctx : CandContext) (b : Nat) (σ : Rng) : Except String (PMat × Rng) :=
  match convert_volumetric_to_final (some npts) aug (candidate_vol vol ctx b) σ with
  | .error e => .error e
  | .ok (pc, σ1) =>
    if pc.shapeIs 3 npts then .ok (pc, σ1)
    else .error "RuntimeError: example does not fit the candidate tensor"

/-- Sequential loop: run a per-candidate step over the candidate list in
order, threading the random source, and fail on the first failing step. -/
def loopConvert (f : Nat → Rng → Except String (PMat × Rng)) :
    List Nat → Rng → Except String (List PMat × Rng)
  | [], σ => .ok ([], σ)
  | b :: bs, σ =>
    match f b σ with
    | .error e => .error e
    | .ok (pc, σ1) =>
      match loopConvert f bs σ1 with
      | .error e => .error e
      | .ok (rest, σ2) => .ok (pc :: rest, σ2)

/-- The loop of `get_examples_from_top_class`: convert every candidate
sub-volume, in candidate order, to its final point cloud. -/
def run_candidates (npts : Nat) (aug : Option (PMat → PMat)) (vol : Vol)
    (ctx : CandContext) (l : List Nat) (σ : Rng) : Except String (List PMat × Rng) :=
  loopConvert (run_candidate_step npts aug vol ctx) l σ

/-- Embedding of `SliceDataset.get_examples_from_top_class`: compute the
candidate context, enumerate the candidate labels in proximity order,
convert each candidate sub-volume to its final point cloud, and pair every
candidate with its ground-truth label — 1 exactly when the correspondence
map sends the seed label and the candidate label to the same original
identifier. -/
def get_examples_from_top_class (cfg : SDConf) (vol : Vol) (c : Nat)
    (drop : Nat × Nat) (label_map : Nat → Nat) (σ : Rng) :
    Except String (List PMat × List Nat × Rng) :=
  match candidate_context cfg vol c drop with
  | .error e => .error e
  | .ok ctx =>
    match cfg.num_points with
    | none => .error "TypeError: num_points is None"
    | some npts =>
      let cands := get_classes_sorted_by_distance cfg.key ctx.d_vol c
      match run_candidates npts cfg.aug vol ctx cands σ with
      | .error e => .error e
      | .ok (exs, σ1) =>
        .ok (exs, cands.map (fun b => if label_map c = label_map b then 1 else 0), σ1)

/-! ## Helper lemmas about the candidate loop -/

/-- Unfolding equation of `loopConvert` on the empty candidate list. -/
theorem loopConvert_nil (f : Nat → Rng → Except String (PMat × Rng)) (σ : Rng) :
    loopConvert f [] σ = .ok ([], σ) := rfl

/-- Unfolding equation of `loopConvert` on a candidate cons cell. -/
theorem loopConvert_cons (f : Nat → Rng → Except String (PMat × Rng)) (b : Nat)
    (bs : List Nat) (σ : Rng) :
    loopConvert f (b :: bs) σ =
      match f b σ with
      | .error e => .error e
      | .ok (pc, σ1) =>
        match loopConvert f bs σ1 with
        | .error e => .error e
        | .ok (rest, σ2) => .ok (pc :: rest, σ2) := rfl

/-- A successful loop step passed the `(3, num_points)` shape check. -/
theorem run_candidate_step_shape (npts : Nat) (aug : Option (PMat → PMat)) (vol : Vol)
    (ctx : CandContext) (b : Nat) (σ : Rng) (pc : PMat) (σ1 : Rng)
    (h : run_candidate_step npts aug vol ctx b σ = .ok (pc, σ1)) :
    pc.shapeIs 3 npts = true := by
  unfold run_candidate_step at h
  cases hconv : convert_volumetric_to_final (some npts) aug (candidate_vol vol ctx b) σ with
  | error e => rw [hconv] at h; cases h
  | ok r =>
    rw [hconv] at h
    obtain ⟨pc0, σ0⟩ := r
    simp only [] at h
    by_cases hs : pc0.shapeIs 3 npts = true
    · rw [if_pos hs] at h
      cases h
      exact hs
    · rw [if_neg hs] at h; cases h

/-- A successful loop step is the final conversion of the candidate. -/
theorem run_candidate_step_ok (npts : Nat) (aug : Option (PMat → PMat)) (vol : Vol)
    (ctx : CandContext) (b : Nat) (σ : Rng) (pc : PMat) (σ1 : Rng)
    (h : run_candidate_step npts aug vol ctx b σ = .ok (pc, σ1)) :
    convert_volumetric_to_final (some npts) aug (candidate_vol vol ctx b) σ =
      .ok (pc, σ1) := by
  unfold run_candidate_step at h
  cases hconv : convert_volumetric_to_final (some npts) aug (candidate_vol vol ctx b) σ with
  | error e => rw [hconv] at h; cases h
  | ok r =>
    rw [hconv] at h
    obtain ⟨pc0, σ0⟩ := r
    simp only [] at h
    by_cases hs : pc0.shapeIs 3 npts = true
    · rw [if_pos hs] at h
      cases h
      rfl
    · rw [if_neg hs] at h; cases h

/-- Every point cloud produced by the candidate loop passed the
`(3, num_points)` shape check. -/
theorem run_candidates_shape (npts : Nat) (aug : Option (PMat → PMat)) (vol : Vol)
    (ctx : CandContext) :
    ∀ (l : List Nat) (σ : Rng) (exs : List PMat) (σ2 : Rng),
      run_candidates npts aug vol ctx l σ = .ok (exs, σ2) →
      ∀ pc ∈ exs, pc.shapeIs 3 npts = true := by
  intro l
  induction l with
  | nil =>
    intro σ exs σ2 h pc hpc
    rw [run_candidates, loopConvert_nil] at h
    cases h
    cases hpc
  | cons b bs ih =>
    intro σ exs σ2 h pc hpc
    rw [run_candidates, loopConvert_cons] at h
    cases hconv : run_candidate_step npts aug vol ctx b σ with
    | error e => rw [hconv] at h; cases h
    | ok r =>
      rw [hconv] at h
      obtain ⟨pc0, σ1⟩ := r
      simp only [] at h
      cases hrest : loopConvert (run_candidate_step npts aug vol ctx) bs σ1 with
      | error e => rw [hrest] at h; cases h
      | ok rr =>
        rw [hrest] at h
        cases h
        rcases List.mem_cons.mp hpc with h1 | h1
        · subst h1
          exact run_candidate_step_shape npts aug vol ctx b σ pc σ1 hconv
        · exact ih σ1 rr.1 rr.2 (by rw [run_candidates, hrest]) pc h1

/-- The candidate loop emits exactly one point cloud per candidate, in
candidate order: the i-th emitted example is the final conversion of the
i-th candidate sub-volume. -/
theorem run_candidates_order (npts : Nat) (aug : Option (PMat → PMat)) (vol : Vol)
    (ctx : CandContext) :
    ∀ (l : List Nat) (σ : Rng) (exs : List PMat) (σ2 : Rng),
      run_candidates npts aug vol ctx l σ = .ok (exs, σ2) →
      exs.length = l.length ∧
        ∀ i (hi : i < l.length) (hi2 : i < exs.length),
          ∃ σa σb,
            convert_volumetric_to_final (some npts) aug
              (candidate_vol vol ctx (l.get ⟨i, hi⟩)) σa = .ok (exs.get ⟨i, hi2⟩, σb) := by
  intro l
  induction l with
  | nil =>
    intro σ exs σ2 h
    rw [run_candidates, loopConvert_nil] at h
    cases h
    exact ⟨rfl, fun i hi => absurd hi (Nat.not_lt_zero i)⟩
  | cons b bs ih =>
    intro σ exs σ2 h
    rw [run_candidates, loopConvert_cons] at h
    cases hconv : run_candidate_step npts aug vol ctx b σ with
    | error e => rw [hconv] at h; cases h
    | ok r =>
      rw [hconv] at h
      obtain ⟨pc0, σ1⟩ := r
      simp only [] at h
      cases hrest : loopConvert (run_candidate_step npts aug vol ctx) bs σ1 with
      | error e => rw [hrest] at h; cases h
      | ok rr =>
        rw [hrest] at h
        cases h
        rcases ih σ1 rr.1 rr.2 (by rw [run_candidates, hrest]) with ⟨hlen, hcorr⟩
        refine ⟨by simpa using hlen, ?_⟩
        intro i hi hi2
        cases i with
        | zero =>
          exact ⟨σ, σ1, run_candidate_step_ok npts aug vol ctx b σ pc0 σ1 hconv⟩
        | succ j =>
          have hj : j < bs.length := Nat.lt_of_succ_lt_succ hi
          have hj2 : j < rr.1.length := Nat.lt_of_succ_lt_succ hi2
          simpa using hcorr j hj hj2

/-! ## Concrete instances used by witnesses and counterexamples -/

/-- The all-zero random source. -/
def constRng : Rng := fun _ => 0

/-- A small many-candidate configuration: 4 points per cloud, radius 5,
one context slice, no augmentation, constant distance key. -/
def exampleConf : SDConf := ⟨some 4, 5, 1, none, fun _ _ _ => 0⟩

/-- A 3×2×2 volume: seed label 1 above a one-slice gap, label 2 below. -/
def exampleVol : Vol := [[[1, 0], [0, 0]], [[0, 0], [0, 0]], [[0, 0], [0, 2]]]

/-- C2: the claim fails — a candidate sub-volume whose crop-and-relabel
does not produce exactly three distinct values is rejected by a raised
assertion (`Except.error`), not by a recoverable `None`: the single-label
volume `[[[5]]]` relabels to distinct values `[1]` and
`convert_volumetric_to_final` propagates the assertion failure. -/
theorem nonthree_class_volume_raises :
    (connected_components (crop_where [[[5]]])).unique = [1] ∧
      convert_volumetric_to_final (some 4) none [[[5]]] constRng =
        .error "final sample should have 3 classes" :=
  ⟨rfl, rfl⟩

/-- C2 (amended): whenever the crop-and-relabel of a candidate sub-volume
does not leave exactly 3 distinct voxel values, the candidate is rejected
before point-cloud conversion by a propagated assertion failure. -/
theorem nonthree_class_volume_rejected_by_error (num_points : Option Nat)
    (aug : Option (PMat → PMat)) (v : Vol) (σ : Rng)
    (h : (connected_components (crop_where v)).unique.length ≠ 3) :
    convert_volumetric_to_final num_points aug v σ =
      .error "final sample should have 3 classes" := by
  simp only [convert_volumetric_to_final]
  rw [if_neg h]

/-- C2 witness: the amended rejection theorem applied to the concrete
single-label volume. -/
theorem nonthree_class_volume_rejected_by_error_witness :
    convert_volumetric_to_final (some 4) none [[[5]]] constRng =
      .error "final sample should have 3 classes" :=
  nonthree_class_volume_rejected_by_error (some 4) none [[[5]]] constRng (by decide)

set_option maxRecDepth 8000 in
set_option maxHeartbeats 2000000 in
/-- C3: the claim fails — on a concrete gap the single emitted example has
point-cloud shape `(3, numPoints)` (coordinate channels first), not
`(numPoints, 3)` (points first): with `numPoints = 4` the emitted array has
3 rows of length 4. -/
theorem emitted_point_cloud_not_points_first :
    ∃ σ1,
      get_examples_from_top_class exampleConf exampleVol 1 (1, 2) (fun x => x) constRng =
        .ok ([[[0, 0, 0, 0], [0, 0, 0, 0], [0, 0, 0, 0]]], [0], σ1) ∧
      PMat.shapeIs [[0, 0, 0, 0], [0, 0, 0, 0], [0, 0, 0, 0]] 3 4 = true ∧
      PMat.shapeIs [[0, 0, 0, 0], [0, 0, 0, 0], [0, 0, 0, 0]] 4 3 = false :=
  ⟨constRng, rfl, by decide, by decide⟩

/-- C3 (amended): every example emitted by the many-candidate batch builder
has point-cloud shape exactly `(3, numPoints)` — numPoints resampled points
along the second axis and the 3 coordinate channels along the first. -/
theorem many_candidate_examples_channels_first (cfg : SDConf) (vol : Vol) (c : Nat)
    (drop : Nat × Nat) (m : Nat → Nat) (σ σ1 : Rng) (npts : Nat)
    (exs : List PMat) (lbls : List Nat)
    (hnp : cfg.num_points = some npts)
    (h : get_examples_from_top_class cfg vol c drop m σ = .ok (exs, lbls, σ1)) :
    ∀ pc ∈ exs, pc.shapeIs 3 npts = true := by
  unfold get_examples_from_top_class at h
  cases hctx : candidate_context cfg vol c drop with
  | error e => rw [hctx] at h; cases h
  | ok ctx =>
    rw [hctx] at h
    simp only [] at h
    rw [hnp] at h
    simp only [] at h
    cases hrun : run_candidates npts cfg.aug vol ctx
        (get_classes_sorted_by_distance cfg.key ctx.d_vol c) σ with
    | error e => rw [hrun] at h; cases h
    | ok rr =>
      rw [hrun] at h
      obtain ⟨exs0, σ2⟩ := rr
      simp only [] at h
      cases h
      exact run_candidates_shape npts cfg.aug vol ctx _ σ _ _ hrun

set_option maxRecDepth 8000 in
set_option maxHeartbeats 2000000 in
/-- C3 witness: the amended shape theorem applied to the concrete gap of
`exampleVol`, where the emitted example indeed has 3 rows of 4 points. -/
theorem many_candidate_examples_channels_first_witness :
    PMat.shapeIs [[0, 0, 0, 0], [0, 0, 0, 0], [0, 0, 0, 0]] 3 4 = true :=
  many_candidate_examples_channels_first exampleConf exampleVol 1 (1, 2) (fun x => x)
    constRng constRng 4 [[[0, 0, 0, 0], [0, 0, 0, 0], [0, 0, 0, 0]]] [0] rfl rfl
    [[0, 0, 0, 0], [0, 0, 0, 0], [0, 0, 0, 0]] (List.mem_singleton.mpr rfl)

/-- The candidate context of the concrete gap of `exampleVol`. -/
def exampleCtx : CandContext :=
  ⟨1, 2, 1, 1, 1, [[[1, 0], [0, 0]]], [[0, 0], [0, 2]],
   [[[1, 0], [0, 0]], [[0, 0], [0, 2]]]⟩

/-- C4: the candidate batch lists candidates sorted by the mean-distance
key in non-decreasing order, nearest first, stable ties broken by ascending
identifier, and the emitted examples preserve exactly this order: the i-th
example is the final conversion of the i-th candidate sub-volume and the
i-th label belongs to the i-th candidate. -/
theorem candidate_batch_sorted_and_order_preserved (cfg : SDConf) (vol : Vol) (c : Nat)
    (drop : Nat × Nat) (m : Nat → Nat) (σ σ1 : Rng) (npts : Nat) (ctx : CandContext)
    (exs : List PMat) (lbls : List Nat)
    (hnp : cfg.num_points = some npts)
    (hctx : candidate_context cfg vol c drop = .ok ctx)
    (h : get_examples_from_top_class cfg vol c drop m σ = .ok (exs, lbls, σ1)) :
    List.Sorted (distLE (cfg.key ctx.d_vol c))
        (get_classes_sorted_by_distance cfg.key ctx.d_vol c) ∧
      exs.length = (get_classes_sorted_by_distance cfg.key ctx.d_vol c).length ∧
      lbls.length = (get_classes_sorted_by_distance cfg.key ctx.d_vol c).length ∧
      ∀ i (hi : i < (get_classes_sorted_by_distance cfg.key ctx.d_vol c).length)
        (hi2 : i < exs.length),
        ∃ σa σb,
          convert_volumetric_to_final (some npts) cfg.aug
              (candidate_vol vol ctx
                ((get_classes_sorted_by_distance cfg.key ctx.d_vol c).get ⟨i, hi⟩)) σa =
            .ok (exs.get ⟨i, hi2⟩, σb) := by
  unfold get_examples_from_top_class at h
  rw [hctx] at h
  simp only [] at h
  rw [hnp] at h
  simp only [] at h
  cases hrun : run_candidates npts cfg.aug vol ctx
      (get_classes_sorted_by_distance cfg.key ctx.d_vol c) σ with
  | error e => rw [hrun] at h; cases h
  | ok rr =>
    rw [hrun] at h
    obtain ⟨exs0, σ2⟩ := rr
    simp only [] at h
    cases h
    rcases run_candidates_order npts cfg.aug vol ctx _ σ _ _ hrun with ⟨hlen, hcorr⟩
    refine ⟨?_, hlen, ?_, hcorr⟩
    · unfold get_classes_sorted_by_distance
      exact List.sorted_insertionSort _ _
    · simp

set_option maxRecDepth 8000 in
set_option maxHeartbeats 2000000 in
/-- C4 witness: on the concrete gap of `exampleVol` the batch succeeds, the
single candidate list `[2]` is sorted, and the emitted example and label
are those of that candidate. -/
theorem candidate_batch_sorted_and_order_preserved_witness :
    List.Sorted (distLE (exampleConf.key exampleCtx.d_vol 1))
        (get_classes_sorted_by_distance exampleConf.key exampleCtx.d_vol 1) ∧
      ([[[0, 0, 0, 0], [0, 0, 0, 0], [0, 0, 0, 0]]] : List PMat).length =
        (get_classes_sorted_by_distance exampleConf.key exampleCtx.d_vol 1).length ∧
      ([0] : List Nat).length =
        (get_classes_sorted_by_distance exampleConf.key exampleCtx.d_vol 1).length ∧
      ∀ i (hi : i < (get_classes_sorted_by_distance exampleConf.key exampleCtx.d_vol 1).length)
        (hi2 : i < ([[[0, 0, 0, 0], [0, 0, 0, 0], [0, 0, 0, 0]]] : List PMat).length),
        ∃ σa σb,
          convert_volumetric_to_final (some 4) exampleConf.aug
              (candidate_vol exampleVol exampleCtx
                ((get_classes_sorted_by_distance exampleConf.key exampleCtx.d_vol 1).get
                  ⟨i, hi⟩)) σa =
            .ok (([[[0, 0, 0, 0], [0, 0, 0, 0], [0, 0, 0, 0]]] : List PMat).get ⟨i, hi2⟩, σb) :=
  candidate_batch_sorted_and_order_preserved exampleConf exampleVol 1 (1, 2) (fun x => x)
    constRng constRng 4 exampleCtx [[[0, 0, 0, 0], [0, 0, 0, 0], [0, 0, 0, 0]]] [0]
    rfl rfl rfl

/-- C6: every label of a candidate batch is 1 exactly when the pre-built
label-correspondence map sends the top fragment and that candidate bottom
fragment to the same original identifier, and 0 otherwise. -/
theorem candidate_labels_match_correspondence (cfg : SDConf) (vol : Vol) (c : Nat)
    (drop : Nat × Nat) (m : Nat → Nat) (σ σ1 : Rng) (ctx : CandContext)
    (exs : List PMat) (lbls : List Nat)
    (hctx : candidate_context cfg vol c drop = .ok ctx)
    (h : get_examples_from_top_class cfg vol c drop m σ = .ok (exs, lbls, σ1)) :
    lbls = (get_classes_sorted_by_distance cfg.key ctx.d_vol c).map
        (fun b => if m c = m b then 1 else 0) := by
  unfold get_examples_from_top_class at h
  rw [hctx] at h
  simp only [] at h
  cases hnp : cfg.num_points with
  | none => rw [hnp] at h; cases h
  | some npts =>
    rw [hnp] at h
    simp only [] at h
    cases hrun : run_candidates npts cfg.aug vol ctx
        (get_classes_sorted_by_distance cfg.key ctx.d_vol c) σ with
    | error e => rw [hrun] at h; cases h
    | ok rr =>
      rw [hrun] at h
      obtain ⟨exs0, σ2⟩ := rr
      simp only [] at h
      cases h
      rfl

set_option maxRecDepth 8000 in
set_option maxHeartbeats 2000000 in
/-- C6 witness: on the concrete gap of `exampleVol` with the identity
correspondence map, the single candidate 2 differs from the seed 1, so the
emitted label list is `[0]`. -/
theorem candidate_labels_match_correspondence_witness :
    ([0] : List Nat) = (get_classes_sorted_by_distance exampleConf.key exampleCtx.d_vol 1).map
        (fun b => if (fun x => x) 1 = (fun x => x) b then 1 else 0) :=
  candidate_labels_match_correspondence exampleConf exampleVol 1 (1, 2) (fun x => x)
    constRng constRng exampleCtx [[[0, 0, 0, 0], [0, 0, 0, 0], [0, 0, 0, 0]]] [0]
    rfl rfl

/-! ## C7: point-cloud conversion and resampling -/

/-- Sampling without replacement always returns exactly the requested
number of rows. -/
theorem sampleWithoutReplacement_length (k : Nat) :
    ∀ (arr : PMat) (σ : Rng), (sampleWithoutReplacement k arr σ).1.length = k := by
  induction k with
  | zero => intro arr σ; rfl
  | succ n ih =>
    intro arr σ
    show (arr.getD (σ 0 % arr.length) [] ::
        (sampleWithoutReplacement n (arr.eraseIdx (σ 0 % arr.length)) σ.tail).1).length = n + 1
    rw [List.length_cons, ih]

/-- When at most `arr.length` rows are requested, every row sampled without
replacement is a row of `arr`. -/
theorem sampleWithoutReplacement_mem (k : Nat) :
    ∀ (arr : PMat) (σ : Rng), k ≤ arr.length →
      ∀ row ∈ (sampleWithoutReplacement k arr σ).1, row ∈ arr := by
  induction k with
  | zero => intro arr σ _ row hrow; cases hrow
  | succ n ih =>
    intro arr σ hk row hrow
    have hpos : 0 < arr.length := Nat.lt_of_lt_of_le (Nat.succ_pos n) hk
    have hidx : σ 0 % arr.length < arr.length := Nat.mod_lt _ hpos
    have hrow2 : row ∈ arr.getD (σ 0 % arr.length) [] ::
        (sampleWithoutReplacement n (arr.eraseIdx (σ 0 % arr.length)) σ.tail).1 := hrow
    rcases List.mem_cons.mp hrow2 with h1 | h1
    · subst h1
      rw [List.getD_eq_getElem _ _ hidx]
      exact List.getElem_mem hidx
    · have herase : n ≤ (arr.eraseIdx (σ 0 % arr.length)).length := by
        rw [List.length_eraseIdx_of_lt hidx]
        exact Nat.le_pred_of_lt hk
      exact List.eraseIdx_subset _ _ (ih _ σ.tail herase row h1)

/-- Every row of a converted grid point cloud is a 3-coordinate triple. -/
theorem convert_grid_to_pointcloud_rows (v : Vol) :
    ∀ row ∈ convert_grid_to_pointcloud v, row.length = 3 := by
  intro row hrow
  rcases List.mem_map.mp hrow with ⟨c, _, hc⟩
  rw [← hc]
  rfl

/-- A volume with a nonzero voxel converts to a nonempty point cloud. -/
theorem convert_grid_to_pointcloud_pos (v : Vol) (h : v.hasNonzero = true) :
    0 < (convert_grid_to_pointcloud v).length := by
  rcases List.any_eq_true.mp h with ⟨c, hc, hcz⟩
  have hmem : c ∈ v.coords.filter (fun c => v.at c.1 c.2.1 c.2.2 ≠ 0) :=
    List.mem_filter.mpr ⟨hc, hcz⟩
  have : (fun c : Nat × Nat × Nat => ([(c.1 : ℚ), (c.2.1 : ℚ), (c.2.2 : ℚ)] : List ℚ)) c ∈
      convert_grid_to_pointcloud v := List.mem_map_of_mem _ hmem
  exact List.length_pos.mpr (List.ne_nil_of_mem this)

/-- C7: for every volume with at least one nonzero voxel and every
configured target count, converting to a point cloud and resampling yields
exactly `t` points of 3 coordinates each; and the resampling is with
replacement exactly when the original point count is below the target,
without replacement otherwise. -/
theorem point_cloud_resample_exact_count (t : Nat) (v : Vol) (σ : Rng)
    (h : v.hasNonzero = true) :
    ∃ pc σ1,
      convert_to_point_cloud (some t) v σ = some (pc, σ1) ∧
        pc.length = t ∧ (∀ row ∈ pc, row.length = 3) ∧
        ((convert_grid_to_pointcloud v).length < t →
          convert_to_point_cloud (some t) v σ =
            random_sample_arr (convert_grid_to_pointcloud v) t true σ) ∧
        (t ≤ (convert_grid_to_pointcloud v).length →
          convert_to_point_cloud (some t) v σ =
            random_sample_arr (convert_grid_to_pointcloud v) t false σ) := by
  have hpos := convert_grid_to_pointcloud_pos v h
  have hne : (convert_grid_to_pointcloud v).isEmpty = false :=
    List.isEmpty_eq_false.mpr (List.ne_nil_of_length_pos hpos)
  by_cases hlt : (convert_grid_to_pointcloud v).length < t
  · refine ⟨(sampleWithReplacement (convert_grid_to_pointcloud v) t σ).1,
      (sampleWithReplacement (convert_grid_to_pointcloud v) t σ).2, ?_, ?_, ?_, ?_, ?_⟩
    · show (if (convert_grid_to_pointcloud v).length < t then _ else _) = _
      rw [if_pos hlt]
      show (if (convert_grid_to_pointcloud v).isEmpty ∧ 0 < t then none else _) = _
      rw [if_neg (by simp [hne])]
      rfl
    · simp [sampleWithReplacement]
    · intro row hrow
      have hrow2 : row ∈ (List.range t).map
          (fun k => (convert_grid_to_pointcloud v).getD
            (σ k % (convert_grid_to_pointcloud v).length) []) := hrow
      rcases List.mem_map.mp hrow2 with ⟨k, _, hk⟩
      have hidx : σ k % (convert_grid_to_pointcloud v).length <
          (convert_grid_to_pointcloud v).length := Nat.mod_lt _ hpos
      rw [← hk, List.getD_eq_getElem _ _ hidx]
      exact convert_grid_to_pointcloud_rows v _ (List.getElem_mem hidx)
    · intro _
      show (if (convert_grid_to_pointcloud v).length < t then _ else _) = _
      rw [if_pos hlt]
    · intro hge
      exact absurd hlt (Nat.not_lt.mpr hge)
  · have hge : t ≤ (convert_grid_to_pointcloud v).length := Nat.not_lt.mp hlt
    refine ⟨(sampleWithoutReplacement t (convert_grid_to_pointcloud v) σ).1,
      (sampleWithoutReplacement t (convert_grid_to_pointcloud v) σ).2, ?_, ?_, ?_, ?_, ?_⟩
    · show (if (convert_grid_to_pointcloud v).length < t then _ else _) = _
      rw [if_neg hlt]
      show (if (convert_grid_to_pointcloud v).isEmpty ∧ 0 < t then none else _) = _
      rw [if_neg (by simp [hne])]
      rfl
    · exact sampleWithoutReplacement_length t _ σ
    · intro row hrow
      exact convert_grid_to_pointcloud_rows v row
        (sampleWithoutReplacement_mem t _ σ hge row hrow)
    · intro hlt2
      exact absurd hlt2 hlt
    · intro _
      show (if (convert_grid_to_pointcloud v).length < t then _ else _) = _
      rw [if_neg hlt]

/-- C7 witness: the one-voxel volume `[[[1]]]` resampled to 3 points. -/
theorem point_cloud_resample_exact_count_witness :
    ∃ pc σ1,
      convert_to_point_cloud (some 3) [[[1]]] constRng = some (pc, σ1) ∧
        pc.length = 3 ∧ (∀ row ∈ pc, row.length = 3) ∧
        ((convert_grid_to_pointcloud [[[1]]]).length < 3 →
          convert_to_point_cloud (some 3) [[[1]]] constRng =
            random_sample_arr (convert_grid_to_pointcloud [[[1]]]) 3 true constRng) ∧
        (3 ≤ (convert_grid_to_pointcloud [[[1]]]).length →
          convert_to_point_cloud (some 3) [[[1]]] constRng =
            random_sample_arr (convert_grid_to_pointcloud [[[1]]]) 3 false constRng) :=
  point_cloud_resample_exact_count 3 [[[1]]] constRng (by decide)

/-! ## C8: truncation of a candidate batch at the first positive -/

/-- Embedding of the truncation step of
`SliceDataset.load_next_candidate_batch`: `num_true = labels.count_nonzero()`;
when truncation is enabled and `num_true >= 1`, keep
`labels[:true_i+1]` and `examples[:true_i+1]` where
`true_i = list(labels).index(1)` is the index of the first positive label. -/
def truncate_candidate_batch (truncate_candidates : Bool) (examples : List PMat)
    (labels : List Nat) : List PMat × List Nat :=
  let num_true := labels.countP (fun l => l != 0)
  if truncate_candidates = true ∧ 1 ≤ num_true then
    let true_i := labels.findIdx (fun l => l == 1)
    (examples.take (true_i + 1), labels.take (true_i + 1))
  else (examples, labels)

/-- C8: with truncation enabled, a batch holding a positive candidate is
cut to the prefix ending at (and including) the first positive: the labels
become the prefix of length `first positive index + 1`, the last kept label
is 1, all earlier kept labels are 0, and the examples are cut to the same
prefix; a batch with no positive is returned unchanged. -/
theorem truncation_stops_at_first_positive (examples : List PMat) (labels : List Nat)
    (hbin : ∀ l ∈ labels, l = 0 ∨ l = 1) :
    (1 ∈ labels →
      truncate_candidate_batch true examples labels =
          (examples.take (labels.findIdx (fun l => l == 1) + 1),
           labels.take (labels.findIdx (fun l => l == 1) + 1)) ∧
        (labels.take (labels.findIdx (fun l => l == 1) + 1)).getLast? = some 1 ∧
        (∀ l ∈ labels.take (labels.findIdx (fun l => l == 1)), l = 0) ∧
        (labels.take (labels.findIdx (fun l => l == 1) + 1)).length =
          labels.findIdx (fun l => l == 1) + 1) ∧
    (1 ∉ labels →
      truncate_candidate_batch true examples labels = (examples, labels)) := by
  constructor
  · intro hmem
    have hfind : labels.findIdx (fun l => l == 1) < labels.length :=
      List.findIdx_lt_length_of_exists ⟨1, hmem, by decide⟩
    constructor
    · unfold truncate_candidate_batch
      rw [if_pos]
      refine ⟨rfl, ?_⟩
      exact List.countP_pos_iff.mpr ⟨1, hmem, by decide⟩
    refine ⟨?_, ?_, ?_⟩
    · rw [List.getLast?_take]
      rw [if_neg (Nat.succ_ne_zero _)]
      simp only [Nat.add_sub_cancel]
      rw [List.getElem?_eq_getElem hfind]
      have := @List.findIdx_getElem _ (fun l => l == 1) labels hfind
      simp only [Option.or_some]
      exact congrArg some (eq_of_beq this)
    · intro l hl
      have hne1 : (l == 1) = false :=
        @List.false_of_mem_take_findIdx _ l labels (fun l => l == 1) hl
      rcases hbin l (List.take_subset _ _ hl) with h0 | h1
      · exact h0
      · rw [h1] at hne1; cases hne1
    · rw [List.length_take]
      exact Nat.min_eq_left (Nat.succ_le_of_lt hfind)
  · intro hnot
    unfold truncate_candidate_batch
    rw [if_neg]
    intro hcond
    rcases hcond with ⟨_, hcnt⟩
    rcases List.countP_pos_iff.mp (Nat.lt_of_lt_of_le Nat.zero_lt_one hcnt) with ⟨a, ha, hat⟩
    rcases hbin a ha with h0 | h1
    · rw [h0] at hat; cases hat
    · exact hnot (h1 ▸ ha)

/-- C8 witness: the truncation theorem applied to the concrete label list
`[0, 0, 1, 0]`, whose first positive sits at index 2. -/
theorem truncation_stops_at_first_positive_witness :
    (1 ∈ [0, 0, 1, 0] →
      truncate_candidate_batch true [[], [], [], []] [0, 0, 1, 0] =
          (([[], [], [], []] : List PMat).take ([0, 0, 1, 0].findIdx (fun l => l == 1) + 1),
           [0, 0, 1, 0].take ([0, 0, 1, 0].findIdx (fun l => l == 1) + 1)) ∧
        ([0, 0, 1, 0].take ([0, 0, 1, 0].findIdx (fun l => l == 1) + 1)).getLast? = some 1 ∧
        (∀ l ∈ [0, 0, 1, 0].take ([0, 0, 1, 0].findIdx (fun l => l == 1)), l = 0) ∧
        ([0, 0, 1, 0].take ([0, 0, 1, 0].findIdx (fun l => l == 1) + 1)).length =
          [0, 0, 1, 0].findIdx (fun l => l == 1) + 1) ∧
    (1 ∉ [0, 0, 1, 0] →
      truncate_candidate_batch true [[], [], [], []] [0, 0, 1, 0] = ([[], [], [], []], [0, 0, 1, 0])) :=
  truncation_stops_at_first_positive [[], [], [], []] [0, 0, 1, 0] (by decide)

/-! ## NeuriteDataset: the single-pair example builder

Embedding of `NeuriteDataset.get_volumetric_example` and the surrounding
dataset methods. The function is split into its sequential stages (top
section relabeling, negative-label selection, bottom section relabeling) so
that theorems can hypothesise the success of a prefix of the computation. -/

/-- Model of `arr[arr != keep] = 0` on a volume. -/
def zero_except (v : Vol) (keep : Nat) : Vol :=
  v.map (fun m => m.map (fun row => row.map (fun x => if x = keep then x else 0)))

/-- Model of `arr[arr != keep] = 0` on a slice. -/
def Mat.zero_except (m : Mat) (keep : Nat) : Mat :=
  m.map (fun row => row.map (fun x => if x = keep then x else 0))

/-- Inner-boundary extraction over the full 3D volume (the closed,
balloon-like variant of `remove_vol_interiors`): a voxel survives when it
is nonzero and some in-bounds 6-neighbour carries a different value. -/
def rm_interior_3d (v : Vol) : Vol :=
  (List.range v.sz).map (fun z =>
    (List.range v.sy).map (fun y =>
      (List.range v.sx).map (fun x =>
        let w := v.at z y x
        if w = 0 then 0
        else
          let differs : Bool :=
            (decide (0 < z) && decide (v.at (z - 1) y x ≠ w)) ||
            (decide (z + 1 < v.sz) && decide (v.at (z + 1) y x ≠ w)) ||
            (decide (0 < y) && decide (v.at z (y - 1) x ≠ w)) ||
            (decide (y + 1 < v.sy) && decide (v.at z (y + 1) x ≠ w)) ||
            (decide (0 < x) && decide (v.at z y (x - 1) ≠ w)) ||
            (decide (x + 1 < v.sx) && decide (v.at z y (x + 1) ≠ w))
          if differs then w else 0)))

/-- Embedding of `NeuriteDataset.remove_vol_interiors`: per-slice (open,
tube-like) when `open_vol` is set, over the whole volume otherwise. -/
def nd_remove_vol_interiors (open_vol : Bool) (v : Vol) : Vol :=
  if open_vol then v.map rm_interior else rm_interior_3d v

/-- The top-section stage of `NeuriteDataset.get_volumetric_example`: build
the masked top section, relabel it by connected components, list the
nonzero relabeled classes on its border (last) slice, randomly choose one,
and zero every other voxel. Returns the zeroed relabeled section, the
chosen class, the zeroed border slice and the advanced random source;
Python raises (here `Except.error`) when the section is empty or the border
slice carries no class. -/
def top_stage (vol : Vol) (c drop_start top_z_len : Nat) (σ : Rng) :
    Except String (Vol × Nat × Mat × Rng) :=
  let top_sec := section_masked vol (drop_start - top_z_len) top_z_len c
  let top_rel := connected_components top_sec
  match top_rel.getLast? with
  | none => .error "IndexError: empty top section"
  | some border =>
    match pyChoice (list_remove border.unique [0]) σ with
    | none => .error "IndexError: no top class on the border slice"
    | some r =>
      .ok (zero_except top_rel r.1, r.1, border.zero_except r.1, r.2)

/-- The negative-label selection of `NeuriteDataset.get_volumetric_example`
(the `label == 0` branch): assert that the first (smallest) distinct value
of the masked bottom border is the background 0, remove the background and
the seed class, return the explicit no-result `none` when nothing is left,
and otherwise choose one of the remaining labels at random. -/
def negative_pick (top_c : Nat) (mismatch : List Nat) (σ : Rng) :
    Except String (Option (Nat × Rng)) :=
  if mismatch.head? = some 0 then
    let mismatch2 := list_remove mismatch [0, top_c]
    match pyChoice mismatch2 σ with
    | none => .ok none
    | some r => .ok (some r)
  else .error "first class should be 0"

/-- The bottom-section stage of `NeuriteDataset.get_volumetric_example`:
build the masked bottom section, relabel it by connected components, list
the nonzero relabeled fragments lying inside the mask on the border
(first) slice, return the explicit no-result `none` when there are none,
and otherwise choose one fragment at random and zero every other voxel. -/
def bot_stage (vol : Vol) (bot_c drop_end bot_z_len : Nat)
    (mask : List (List Bool)) (σ : Rng) : Except String (Option (Vol × Rng)) :=
  let bot_sec := section_masked vol drop_end bot_z_len bot_c
  let bot_rel := connected_components bot_sec
  match bot_rel.head? with
  | none => .error "IndexError: empty bottom section"
  | some border0 =>
    let frags := list_remove (Mat.unique (border0.maskOutside mask)) [0]
    match pyChoice frags σ with
    | none => .ok none
    | some r => .ok (some (zero_except bot_rel r.1, r.2))

/-- Embedding of `NeuriteDataset.get_volumetric_example`: locate the z-span
of the seed class, assert it exceeds the gap size by 2, draw a random gap
position (with a one-slice top margin, and a reduced upper bound for
positive examples), relabel the top section and choose the top fragment,
search for the bottom class inside the circular mask around the rounded top
centroid (the seed class itself for positive examples, a random other
masked label for negative ones), relabel the bottom section and choose a
fragment inside the mask, and assemble the final volume with empty gap
slices. `Except.ok none` is the explicit `return None` of the source;
`Except.error` is a raised exception. -/
def nd_get_volumetric_example (vol : Vol) (c label num_slices radius context_slices : Nat)
    (σ : Rng) : Except String (Option Vol × Rng) :=
  match find_zmin vol c, find_zmax vol c with
  | some zmin, some zmax =>
    if num_slices + 2 ≤ zmax - zmin then
      let margin := 1
      let z_max_range := if label = 1 then zmax - margin - num_slices + 1 else zmax + 1
      let ds := pyRandint (zmin + margin) z_max_range σ
      let drop_start := ds.1
      let drop_end := min (drop_start + num_slices) (vol.sz - 1)
      let top_z_len := min context_slices (drop_start - zmin)
      let bot_z_len := min context_slices (vol.sz - drop_end)
      match top_stage vol c drop_start top_z_len ds.2 with
      | .error e => .error e
      | .ok (top_final, _, border, σ2) =>
        match center_of_mass_sums border with
        | none => .error "ValueError: round of NaN"
        | some com =>
          let com_x := pyRoundDiv com.2.1 com.1
          let com_y := pyRoundDiv com.2.2 com.1
          let mask := circular_mask vol.sy vol.sx (com_y, com_x) radius
          let bot_border := (vol.getD drop_end []).maskOutside mask
          let pick : Except String (Option (Nat × Rng)) :=
            if label = 1 then .ok (some (c, σ2))
            else negative_pick c bot_border.unique σ2
          match pick with
          | .error e => .error e
          | .ok none => .ok (none, σ2)
          | .ok (some (bot_c, σ3)) =>
            match bot_stage vol bot_c drop_end bot_z_len mask σ3 with
            | .error e => .error e
            | .ok none => .ok (none, σ3)
            | .ok (some (bot_final, σ4)) =>
              .ok (some (top_final ++ zero_vol num_slices vol.sy vol.sx ++ bot_final), σ4)
    else .error "zspan of neurite must be at least 2 slices bigger than num_slices to drop"
  | _, _ => .error "UnboundLocalError: zmin or zmax not assigned"

/-- Removing the background and seed labels from a list that holds nothing
else empties it. -/
theorem list_remove_eq_nil (l : List Nat) (c : Nat) (h : ∀ x ∈ l, x = 0 ∨ x = c) :
    list_remove l [0, c] = [] := by
  unfold list_remove
  rw [List.filter_eq_nil_iff]
  intro a ha
  rcases h a ha with h0 | h0 <;> simp [h0]

/-- C9 (amended): a negative-label request (`label = 0`) whose prefix
stages succeed returns the explicit `None` without raising in both failure
situations the claim describes — (a) when the masked bottom border carries
no label besides background and the seed label, provided its smallest
distinct value is the background 0, and (b) when, after a bottom label is
drawn, no relabeled bottom fragment intersects the mask. -/
theorem negative_request_in_radius_returns_none (vol : Vol) (c ns radius cs : Nat)
    (σ σ2 σ3 : Rng) (zmin zmax bot_c : Nat) (topf : Vol) (rtc : Nat) (border : Mat)
    (com : Nat × Nat × Nat) (ds : Nat × Rng) (drop_end : Nat)
    (mask : List (List Bool)) (bot_border : Mat) (mismatch : List Nat)
    (h1 : find_zmin vol c = some zmin)
    (h2 : find_zmax vol c = some zmax)
    (h3 : ns + 2 ≤ zmax - zmin)
    (hds : ds = pyRandint (zmin + 1) (zmax + 1) σ)
    (h4 : top_stage vol c ds.1 (min cs (ds.1 - zmin)) ds.2 = .ok (topf, rtc, border, σ2))
    (h5 : center_of_mass_sums border = some com)
    (hde : drop_end = min (ds.1 + ns) (vol.sz - 1))
    (hmask : mask = circular_mask vol.sy vol.sx
        (pyRoundDiv com.2.2 com.1, pyRoundDiv com.2.1 com.1) radius)
    (hbb : bot_border = (vol.getD drop_end []).maskOutside mask)
    (hmm : mismatch = bot_border.unique)
    (hbg : mismatch.head? = some 0) :
    ((∀ x ∈ mismatch, x = 0 ∨ x = c) →
      nd_get_volumetric_example vol c 0 ns radius cs σ = .ok (none, σ2)) ∧
    (pyChoice (list_remove mismatch [0, c]) σ2 = some (bot_c, σ3) →
      bot_stage vol bot_c drop_end (min cs (vol.sz - drop_end)) mask σ3 = .ok none →
      nd_get_volumetric_example vol c 0 ns radius cs σ = .ok (none, σ3)) := by
  subst hds hde hmask hbb hmm
  have h01 : ¬ ((0 : Nat) = 1) := by decide
  constructor
  · intro hsub
    unfold nd_get_volumetric_example
    rw [h1, h2]
    simp only []
    rw [if_pos h3]
    simp only [if_neg h01]
    rw [h4]
    simp only []
    rw [h5]
    simp only []
    unfold negative_pick
    rw [if_pos hbg]
    simp only []
    rw [list_remove_eq_nil _ _ hsub]
    rfl
  · intro hpick hbot
    unfold nd_get_volumetric_example
    rw [h1, h2]
    simp only []
    rw [if_pos h3]
    simp only [if_neg h01]
    rw [h4]
    simp only []
    rw [h5]
    simp only []
    unfold negative_pick
    rw [if_pos hbg]
    simp only []
    rw [hpick]
    simp only []
    rw [hbot]

/-- A 10×1×1 volume entirely filled by label 1: every voxel of the bottom
border slice is the seed label, so the masked border has no background. -/
def allOnesVol : Vol := List.replicate 10 [[1]]

/-- A 10×1×1 volume with label 1 on slices 0, 1, 2 and 9 and background in
between: after dropping slices [1, 3) nothing lies below the gap within one
context slice. -/
def sparseSeedVol : Vol :=
  [[[1]], [[1]], [[1]], [[0]], [[0]], [[0]], [[0]], [[0]], [[0]], [[1]]]

/-- C9: the claim fails — a negative-label request on a volume whose masked
bottom border holds only the seed label (no background voxel, because the
circular mask covers the whole fully-labelled 1×1 slice) raises the
assertion `first class should be 0` instead of returning the explicit
`None`: the set of distinct masked border values is `[1]`, which contains
nothing but the seed label, yet the call errors. -/
theorem negative_request_without_background_raises :
    ((allOnesVol.getD 3 []).maskOutside (circular_mask 1 1 (0, 0) 5)).unique = [1] ∧
      nd_get_volumetric_example allOnesVol 1 0 2 5 1 constRng =
        .error "first class should be 0" :=
  ⟨rfl, rfl⟩

/-- C9 witness: the amended theorem applied to `sparseSeedVol`, where the
masked bottom border holds only background, so the negative request
returns the explicit `None`. -/
theorem negative_request_in_radius_returns_none_witness :
    nd_get_volumetric_example sparseSeedVol 1 0 2 5 1 constRng = .ok (none, constRng) :=
  (negative_request_in_radius_returns_none sparseSeedVol 1 2 5 1 constRng constRng constRng
    0 9 0 [[[1]]] 1 [[1]] (1, 0, 0) (pyRandint 1 10 constRng) 3
    (circular_mask 1 1 (0, 0) 5) [[0]] [0]
    rfl rfl (by decide) rfl rfl rfl rfl rfl rfl rfl rfl).1 (by decide)

/-! ## NeuriteDataset: state, indexing and the retrying example builder -/

/-- The fields of a `NeuriteDataset` consumed by the example builder. -/
structure NDState where
  vols : List Vol
  classes : List Nat
  class_i_to_vol_i : List Nat
  num_slices : Nat × Nat
  radius : Nat
  context_slices : Nat
  num_points : Option Nat
  open_vol : Bool
  retry : Bool
  epoch_multplier : Nat
  swapaxes : Bool
  aug : Option (PMat → PMat)
  true_length : Nat
  effective_length : Nat

/-- Embedding of `NeuriteDataset.get_vol_class_label_from_index`: reduce the
index modulo the true length, derive the binary label from its parity
(even means positive), halve it and look up the seed class and its volume. -/
def nd_get_vol_class_label_from_index (S : NDState) (index : Nat) : Vol × Nat × Nat :=
  let i1 := index % S.true_length
  let label : Nat := if i1 % 2 = 0 then 1 else 0
  let i2 := i1 / 2
  (S.vols.getD (S.class_i_to_vol_i.getD i2 0) [], S.classes.getD i2 0, label)

/-- Embedding of `NeuriteDataset.__len__`. -/
def nd_len (S : NDState) : Nat := S.effective_length

/-- The tail of `NeuriteDataset.get_example` after a successful volumetric
example: final crop and relabel, the 3-class assertion, interior removal,
point-cloud conversion, augmentation, and the axis swap. -/
def nd_finish (S : NDState) (v : Vol) (label : Nat) (σ : Rng) :
    Except String (PMat × Nat × Rng) :=
  let cropped := crop_where v
  let relabeled := connected_components cropped
  if relabeled.unique.length = 3 then
    let stripped := nd_remove_vol_interiors S.open_vol relabeled
    match convert_to_point_cloud S.num_points stripped σ with
    | none => .error "ValueError: cannot sample from an empty point cloud"
    | some (pc, σ1) =>
      let pc := match S.aug with
        | some f => f pc
        | none => pc
      let pc := if S.swapaxes then pc.transpose else pc
      .ok (pc, label, σ1)
  else .error "final sample should have 3 classes"

/-- One attempt of `NeuriteDataset.get_example`: resolve the seed class and
label from the index, draw the number of slices to drop, and build the
volumetric example. Returns the label together with the optional volume. -/
def nd_attempt (S : NDState) (σ : Rng) (index : Nat) :
    Except String (Nat × Option Vol × Rng) :=
  let vcl := nd_get_vol_class_label_from_index S index
  let ns := pyRandint S.num_slices.1 S.num_slices.2 σ
  match nd_get_volumetric_example vcl.1 vcl.2.1 vcl.2.2 ns.1 S.radius S.context_slices ns.2 with
  | .error e => .error e
  | .ok (ov, σ2) => .ok (vcl.2.2, ov, σ2)

/-- The retry recursion of `NeuriteDataset.get_example`, generic in the
attempt and finishing steps: on a failed attempt (`None` volume) with retry
enabled, redo the call at a fresh random index in `[0, eff]`. The fuel
argument bounds the recursion depth of the embedding only — the source
recursion carries no bound — and `none` means the fuel was exhausted while
the source would still be recursing. -/
def retryLoop (att : Rng → Nat → Except String (Nat × Option Vol × Rng))
    (fin : Vol → Nat → Rng → Except String (PMat × Nat × Rng))
    (retry : Bool) (eff : Nat) : Nat → Rng → Nat → Option (Except String (PMat × Nat × Rng))
  | 0, _, _ => none
  | fuel + 1, σ, index =>
    match att σ index with
    | .error e => some (.error e)
    | .ok (label, some v, σ2) => some (fin v label σ2)
    | .ok (_, none, σ2) =>
      if retry then
        retryLoop att fin retry eff fuel (pyRandint 0 eff σ2).2 (pyRandint 0 eff σ2).1
      else some (.error "TypeError: crop_where of None")

/-- Embedding of `NeuriteDataset.get_example`: one attempt, then — when the
attempt yields `None` and retry is enabled — a recursive call with a random
index drawn from `[0, effective_length]`. -/
def nd_get_example (S : NDState) (fuel : Nat) (σ : Rng) (index : Nat) :
    Option (Except String (PMat × Nat × Rng)) :=
  retryLoop (nd_attempt S) (nd_finish S) S.retry S.effective_length fuel σ index

/-- Unfolding equation of `retryLoop` at successor fuel. -/
theorem retryLoop_succ (att : Rng → Nat → Except String (Nat × Option Vol × Rng))
    (fin : Vol → Nat → Rng → Except String (PMat × Nat × Rng))
    (retry : Bool) (eff fuel : Nat) (σ : Rng) (index : Nat) :
    retryLoop att fin retry eff (fuel + 1) σ index =
      match att σ index with
      | .error e => some (.error e)
      | .ok (label, some v, σ2) => some (fin v label σ2)
      | .ok (_, none, σ2) =>
        if retry then
          retryLoop att fin retry eff fuel (pyRandint 0 eff σ2).2 (pyRandint 0 eff σ2).1
        else some (.error "TypeError: crop_where of None") := rfl

/-- A failed attempt with retry enabled recurses at the drawn index. -/
theorem retryLoop_retry_step (att : Rng → Nat → Except String (Nat × Option Vol × Rng))
    (fin : Vol → Nat → Rng → Except String (PMat × Nat × Rng))
    (eff fuel : Nat) (σ σ2 : Rng) (index lbl : Nat)
    (hfail : att σ index = .ok (lbl, none, σ2)) :
    retryLoop att fin true eff (fuel + 1) σ index =
      retryLoop att fin true eff fuel (pyRandint 0 eff σ2).2 (pyRandint 0 eff σ2).1 := by
  rw [retryLoop_succ, hfail]
  rfl

/-- A concrete dataset state: one volume (`sparseSeedVol`), one seed class,
a 2-slice gap, retry enabled. Every attempt at index 0 under the all-zero
random source fails (the positive example finds no bottom fragment in
radius), and the redrawn retry index is again 0. -/
def retryState : NDState :=
  ⟨[sparseSeedVol], [1], [0], (2, 2), 5, 1, some 4, true, true, 1, true, none, 2, 2⟩

/-- Under the all-zero random source, the attempt at index 0 requests a
positive example and fails with the explicit `None`. -/
theorem retryState_attempt : nd_attempt retryState constRng 0 = .ok (1, none, constRng) := rfl

/-- One retry round at index 0 under the all-zero source returns to the
same index and source. -/
theorem retryState_step (n : Nat) :
    nd_get_example retryState (n + 1) constRng 0 = nd_get_example retryState n constRng 0 := by
  show retryLoop (nd_attempt retryState) (nd_finish retryState) true 2 (n + 1) constRng 0 =
    retryLoop (nd_attempt retryState) (nd_finish retryState) true 2 n constRng 0
  rw [retryLoop_retry_step _ _ 2 n constRng constRng 0 1 retryState_attempt]
  rfl

/-- No amount of fuel makes the retrying example builder terminate on
`retryState` under the all-zero random source. -/
theorem retryState_never : ∀ n, nd_get_example retryState n constRng 0 = none
  | 0 => rfl
  | n + 1 => by rw [retryState_step]; exact retryState_never n

/-- C5: the claim fails — the retry recursion of
`NeuriteDataset.get_example` has no maximum retry count: on `retryState`
with the all-zero random source, retry is enabled, the attempt at index 0
fails with the explicit `None`, and the example builder never terminates —
no recursion-depth budget suffices. -/
theorem retry_has_no_bound_nontermination :
    retryState.retry = true ∧
      nd_attempt retryState constRng 0 = .ok (1, none, constRng) ∧
      ¬ ∃ fuel r, nd_get_example retryState fuel constRng 0 = some r :=
  ⟨rfl, rfl, fun h => by
    rcases h with ⟨fuel, r, h⟩
    rw [retryState_never fuel] at h
    cases h⟩

/-- C5 (amended): when single-pair generation fails (`None`) and retry is
enabled, `get_example` retries with a random index drawn from
`[0, effective_length]`; no maximum retry count bounds the recursion — each
failure simply recurses at the fresh index. -/
theorem failed_attempt_retries_unbounded (S : NDState) (fuel : Nat) (σ σ2 : Rng)
    (index lbl : Nat)
    (hretry : S.retry = true)
    (hfail : nd_attempt S σ index = .ok (lbl, none, σ2)) :
    nd_get_example S (fuel + 1) σ index =
        nd_get_example S fuel (pyRandint 0 S.effective_length σ2).2
          (pyRandint 0 S.effective_length σ2).1 ∧
      (pyRandint 0 S.effective_length σ2).1 ≤ S.effective_length := by
  constructor
  · unfold nd_get_example
    rw [hretry]
    exact retryLoop_retry_step _ _ _ fuel σ σ2 index lbl hfail
  · show 0 + σ2 0 % (S.effective_length - 0 + 1) ≤ S.effective_length
    have h := Nat.mod_lt (σ2 0) (show 0 < S.effective_length - 0 + 1 by omega)
    omega

/-- C5 witness: the retry equation applied to `retryState` at index 0. -/
theorem failed_attempt_retries_unbounded_witness :
    nd_get_example retryState 1 constRng 0 =
        nd_get_example retryState 0 (pyRandint 0 retryState.effective_length constRng).2
          (pyRandint 0 retryState.effective_length constRng).1 ∧
      (pyRandint 0 retryState.effective_length constRng).1 ≤ retryState.effective_length :=
  failed_attempt_retries_unbounded retryState 0 constRng constRng 0 1 rfl rfl

/-! ## NeuriteDataset: construction, class selection and epoch length -/

/-- Modelled from the spec: `get_classes_which_zspan_at_least` of
`proofreader.utils` is not under src/; per the spec, the identifiers
appearing in at least `minSpan` distinct z-slices (background excluded). -/
def get_classes_which_zspan_at_least (vol : Vol) (minSpan : Nat) : List Nat :=
  (vol.unique).filter (fun cId =>
    cId ≠ 0 ∧
      minSpan ≤ ((List.range vol.sz).filter
        (fun z => (vol.getD z []).vals.contains cId)).length)

/-- Modelled from the spec: `get_classes_with_at_least_volume` of
`proofreader.utils` is not under src/; per the spec, the identifiers whose
total voxel count reaches the threshold (background excluded). -/
def get_classes_with_at_least_volume (vol : Vol) (minVoxels : Nat) : List Nat :=
  (vol.unique).filter (fun cId =>
    cId ≠ 0 ∧ minVoxels ≤ vol.vals.countP (fun x => x = cId))

/-- The per-volume seed-class selection of `NeuriteDataset.__init__`:
`list(set(classes_z) & set(classes_vol))` — the intersection of the z-span
and volume filters, kept in canonical ascending order (the Python set
iteration order is unspecified; only the selected set matters). -/
def nd_cls_union (vol : Vol) (max_num_slices : Nat) : List Nat :=
  (get_classes_which_zspan_at_least vol (max_num_slices + 2)).filter
    (fun cId => cId ∈ get_classes_with_at_least_volume vol 400)

/-- Draw a permutation of `[0, n)` from the random source by repeatedly
removing a drawn position from the pool: the model of
`np.random.permutation` threading the explicit source. -/
def shuffle_perm_go : Nat → Rng → List Nat → List Nat
  | 0, _, _ => []
  | k + 1, σ, pool =>
    let i := σ 0 % pool.length
    pool.getD i 0 :: shuffle_perm_go k σ.tail (pool.eraseIdx i)

/-- A drawn permutation of `[0, n)`. -/
def shuffle_perm (σ : Rng) (n : Nat) : List Nat := shuffle_perm_go n σ (List.range n)

/-- Embedding of `NeuriteDataset.__init__`: select the seed classes of
every volume (z-span and volume filters), lay them out with their volume
indices, optionally shuffle both lists together with one drawn permutation,
and set `true_length = 2 × (number of selected classes)` and
`effective_length = true_length × epoch_multplier`. -/
def nd_init (vols : List Vol) (num_slices : Nat × Nat) (radius context_slices : Nat)
    (num_points : Option Nat) (open_vol retry : Bool) (epoch_multplier : Nat)
    (shuffle swapaxes : Bool) (aug : Option (PMat → PMat)) (σ : Rng) : NDState :=
  let pairs := (List.range vols.length).flatMap (fun i =>
    (nd_cls_union (vols.getD i []) num_slices.2).map (fun cId => (cId, i)))
  let pairs2 :=
    if shuffle then (shuffle_perm σ pairs.length).map (fun j => pairs.getD j (0, 0))
    else pairs
  ⟨vols, pairs2.map Prod.fst, pairs2.map Prod.snd, num_slices, radius, context_slices,
   num_points, open_vol, retry, epoch_multplier, swapaxes, aug,
   pairs.length * 2, pairs.length * 2 * epoch_multplier⟩

/-- The drawn permutation has the requested length. -/
theorem shuffle_perm_go_length (k : Nat) :
    ∀ (σ : Rng) (pool : List Nat), (shuffle_perm_go k σ pool).length = k := by
  induction k with
  | zero => intro σ pool; rfl
  | succ n ih =>
    intro σ pool
    show (pool.getD (σ 0 % pool.length) 0 ::
      shuffle_perm_go n σ.tail (pool.eraseIdx (σ 0 % pool.length))).length = n + 1
    rw [List.length_cons, ih]

/-- The label of `get_vol_class_label_from_index` is the parity bit of the
index reduced modulo the true length. -/
theorem nd_label_eq (S : NDState) (index : Nat) :
    (nd_get_vol_class_label_from_index S index).2.2 =
      if (index % S.true_length) % 2 = 0 then 1 else 0 := rfl

/-- The constructed state relates its lengths as the source does. -/
theorem nd_init_lengths (vols : List Vol) (num_slices : Nat × Nat)
    (radius context_slices : Nat) (num_points : Option Nat) (open_vol retry : Bool)
    (epoch_multplier : Nat) (shuffle swapaxes : Bool) (aug : Option (PMat → PMat))
    (σ : Rng) :
    (nd_init vols num_slices radius context_slices num_points open_vol retry
        epoch_multplier shuffle swapaxes aug σ).true_length =
      2 * (nd_init vols num_slices radius context_slices num_points open_vol retry
        epoch_multplier shuffle swapaxes aug σ).classes.length ∧
    (nd_init vols num_slices radius context_slices num_points open_vol retry
        epoch_multplier shuffle swapaxes aug σ).effective_length =
      (nd_init vols num_slices radius context_slices num_points open_vol retry
        epoch_multplier shuffle swapaxes aug σ).true_length * epoch_multplier := by
  constructor
  · unfold nd_init
    simp only []
    by_cases hs : shuffle = true
    · rw [if_pos hs]
      simp only [List.length_map]
      rw [shuffle_perm, shuffle_perm_go_length, Nat.mul_comm]
    · rw [if_neg hs]
      simp only [List.length_map]
      rw [Nat.mul_comm]
  · rfl

/-- The number of even and of odd numbers below `2 * k` is `k` each. -/
theorem countP_parity_range (k : Nat) :
    ((List.range (2 * k)).countP (fun i => i % 2 = 0) = k) ∧
      ((List.range (2 * k)).countP (fun i => i % 2 = 1) = k) := by
  induction k with
  | zero => exact ⟨rfl, rfl⟩
  | succ n ih =>
    have h2 : 2 * (n + 1) = (2 * n + 1) + 1 := by omega
    rw [h2, List.range_succ, List.range_succ]
    rw [List.countP_append, List.countP_append, List.countP_append, List.countP_append]
    have he : (2 * n) % 2 = 0 := Nat.mul_mod_right 2 n
    have ho : (2 * n + 1) % 2 = 1 := by omega
    constructor
    · rw [ih.1]
      simp [List.countP_cons, he, ho]
    · rw [ih.2]
      simp [List.countP_cons, he, ho]

/-- C10: in a constructed dataset, the example at an index is requested
positive (label 1) exactly when the index reduced modulo the true length is
even and negative (label 0) exactly when it is odd; positive and negative
requests are exactly balanced over one epoch; and the dataset length is
exactly `2 × (number of selected seed classes) × epoch_multplier`. -/
theorem index_parity_balance_and_length (vols : List Vol) (num_slices : Nat × Nat)
    (radius context_slices : Nat) (num_points : Option Nat) (open_vol retry : Bool)
    (epoch_multplier : Nat) (shuffle swapaxes : Bool) (aug : Option (PMat → PMat))
    (σ : Rng) :
    let S := nd_init vols num_slices radius context_slices num_points open_vol retry
      epoch_multplier shuffle swapaxes aug σ
    (∀ index,
      ((nd_get_vol_class_label_from_index S index).2.2 = 1 ↔
        (index % S.true_length) % 2 = 0) ∧
      ((nd_get_vol_class_label_from_index S index).2.2 = 0 ↔
        (index % S.true_length) % 2 = 1)) ∧
    ((List.range S.effective_length).countP
        (fun i => (nd_get_vol_class_label_from_index S i).2.2 = 1) =
      (List.range S.effective_length).countP
        (fun i => (nd_get_vol_class_label_from_index S i).2.2 = 0)) ∧
    nd_len S = 2 * S.classes.length * epoch_multplier := by
  intro S
  have h12 := nd_init_lengths vols num_slices radius context_slices num_points
    open_vol retry epoch_multplier shuffle swapaxes aug σ
  have h1 : S.true_length = 2 * S.classes.length := h12.1
  have h2 : S.effective_length = S.true_length * epoch_multplier := h12.2
  refine ⟨?_, ?_, ?_⟩
  · intro index
    have hl := nd_label_eq S index
    rcases Nat.mod_two_eq_zero_or_one (index % S.true_length) with h | h <;>
      rw [hl, h] <;> simp
  · have hdvd : (2 : Nat) ∣ S.true_length := ⟨S.classes.length, h1⟩
    have hcong1 : ∀ i ∈ List.range S.effective_length,
        ((decide ((nd_get_vol_class_label_from_index S i).2.2 = 1)) = true ↔
          (decide (i % 2 = 0)) = true) := by
      intro i _
      rw [nd_label_eq, Nat.mod_mod_of_dvd i hdvd]
      rcases Nat.mod_two_eq_zero_or_one i with h | h <;> rw [h] <;> simp
    have hcong0 : ∀ i ∈ List.range S.effective_length,
        ((decide ((nd_get_vol_class_label_from_index S i).2.2 = 0)) = true ↔
          (decide (i % 2 = 1)) = true) := by
      intro i _
      rw [nd_label_eq, Nat.mod_mod_of_dvd i hdvd]
      rcases Nat.mod_two_eq_zero_or_one i with h | h <;> rw [h] <;> simp
    rw [List.countP_congr hcong1, List.countP_congr hcong0]
    have he : S.effective_length = 2 * (S.classes.length * epoch_multplier) := by
      rw [h2, h1, Nat.mul_assoc]
    rw [he]
    rw [(countP_parity_range (S.classes.length * epoch_multplier)).1,
        (countP_parity_range (S.classes.length * epoch_multplier)).2]
  · show S.effective_length = 2 * S.classes.length * epoch_multplier
    rw [h2, h1]
